import Mathlib

/-! Verification of the cosi runtime specification against its source.

The development shallowly embeds:
  * the wire surface of `runtime.proto` (services, messages, enums) as
    protobuf descriptors;
  * the `Any` resource (`any.go`) with its passthrough YAML spec;
  * `ResourceDefinitionSpec.Fill` and `DeepCopy`
    (`pkg/resource/meta/spec/resource_definition.go`);
  * `safe.WriterModify` (`pkg/safe/writer.go`).
-/

namespace CosiRuntime

/-! Protobuf descriptor model.

A faithful descriptor-level embedding of `runtime.proto`: each message is the
list of its fields (name, field number, type, label), each enum is the list of
its values, each service the list of its rpcs.  -/

inductive FieldType where
  | string
  | bool
  | bytes
  | message (name : String)
  | enumOf (name : String)
deriving DecidableEq

inductive FieldLabel where
  | singular
  | optionalField
  | repeated
deriving DecidableEq

structure ProtoField where
  name : String
  number : Nat
  typ : FieldType
  label : FieldLabel
deriving DecidableEq

structure ProtoMessage where
  name : String
  fields : List ProtoField
deriving DecidableEq

structure ProtoEnumValue where
  name : String
  number : Nat
deriving DecidableEq

structure ProtoEnum where
  name : String
  values : List ProtoEnumValue
deriving DecidableEq

structure ProtoRpc where
  name : String
  request : ProtoMessage
  response : ProtoMessage
  serverStreaming : Bool
deriving DecidableEq

namespace Proto

/-- Singular scalar string field. -/
def strField (n : String) (num : Nat) : ProtoField :=
  ⟨n, num, FieldType.string, FieldLabel.singular⟩

-- enum ControllerInputKind { WEAK = 0; STRONG = 1; DESTROY_READY = 2; }
def ControllerInputKind : ProtoEnum :=
  ⟨"ControllerInputKind",
   [⟨"WEAK", 0⟩, ⟨"STRONG", 1⟩, ⟨"DESTROY_READY", 2⟩]⟩

-- enum ControllerOutputKind { EXCLUSIVE = 0; SHARED = 1; }
def ControllerOutputKind : ProtoEnum :=
  ⟨"ControllerOutputKind",
   [⟨"EXCLUSIVE", 0⟩, ⟨"SHARED", 1⟩]⟩

-- message ControllerInput { kind = 1; namespace = 2; type = 3; optional id = 4; }
def ControllerInput : ProtoMessage :=
  ⟨"ControllerInput",
   [⟨"kind", 1, FieldType.enumOf "ControllerInputKind", FieldLabel.singular⟩,
    strField "namespace" 2,
    strField "type" 3,
    ⟨"id", 4, FieldType.string, FieldLabel.optionalField⟩]⟩

-- message ControllerOutput { type = 2; kind = 3; }
def ControllerOutput : ProtoMessage :=
  ⟨"ControllerOutput",
   [strField "type" 2,
    ⟨"kind", 3, FieldType.enumOf "ControllerOutputKind", FieldLabel.singular⟩]⟩

def RegisterControllerRequest : ProtoMessage :=
  ⟨"RegisterControllerRequest",
   [strField "controller_name" 1,
    ⟨"inputs", 2, FieldType.message "ControllerInput", FieldLabel.repeated⟩,
    ⟨"outputs", 3, FieldType.message "ControllerOutput", FieldLabel.repeated⟩]⟩

def RegisterControllerResponse : ProtoMessage :=
  ⟨"RegisterControllerResponse", [strField "controller_token" 1]⟩

def StartRequest : ProtoMessage := ⟨"StartRequest", []⟩

def StartResponse : ProtoMessage := ⟨"StartResponse", []⟩

def StopRequest : ProtoMessage := ⟨"StopRequest", []⟩

def StopResponse : ProtoMessage := ⟨"StopResponse", []⟩

def ReconcileEventsRequest : ProtoMessage :=
  ⟨"ReconcileEventsRequest", [strField "controller_token" 1]⟩

def ReconcileEventsResponse : ProtoMessage := ⟨"ReconcileEventsResponse", []⟩

def QueueReconcileRequest : ProtoMessage :=
  ⟨"QueueReconcileRequest", [strField "controller_token" 1]⟩

def QueueReconcileResponse : ProtoMessage := ⟨"QueueReconcileResponse", []⟩

def UpdateInputsRequest : ProtoMessage :=
  ⟨"UpdateInputsRequest",
   [strField "controller_token" 1,
    ⟨"inputs", 2, FieldType.message "ControllerInput", FieldLabel.repeated⟩]⟩

def UpdateInputsResponse : ProtoMessage := ⟨"UpdateInputsResponse", []⟩

def RuntimeGetRequest : ProtoMessage :=
  ⟨"RuntimeGetRequest",
   [strField "controller_token" 1, strField "namespace" 2,
    strField "type" 3, strField "id" 4]⟩

def RuntimeGetResponse : ProtoMessage :=
  ⟨"RuntimeGetResponse",
   [⟨"resource", 1, FieldType.message "resource.Resource", FieldLabel.singular⟩]⟩

def RuntimeListOptions : ProtoMessage :=
  ⟨"RuntimeListOptions",
   [⟨"label_query", 1, FieldType.message "resource.LabelQuery", FieldLabel.singular⟩]⟩

def RuntimeListRequest : ProtoMessage :=
  ⟨"RuntimeListRequest",
   [strField "controller_token" 1, strField "namespace" 2, strField "type" 3,
    ⟨"options", 4, FieldType.message "RuntimeListOptions", FieldLabel.singular⟩]⟩

def RuntimeListResponse : ProtoMessage :=
  ⟨"RuntimeListResponse",
   [⟨"resource", 1, FieldType.message "resource.Resource", FieldLabel.singular⟩]⟩

def ConditionFinalizersEmpty : ProtoMessage := ⟨"ConditionFinalizersEmpty", []⟩

def RuntimeWatchForRequest : ProtoMessage :=
  ⟨"RuntimeWatchForRequest",
   [strField "controller_token" 1, strField "namespace" 2,
    strField "type" 3, strField "id" 4,
    ⟨"finalizers_empty", 5, FieldType.message "ConditionFinalizersEmpty", FieldLabel.singular⟩]⟩

def RuntimeWatchForResponse : ProtoMessage :=
  ⟨"RuntimeWatchForResponse",
   [⟨"resource", 1, FieldType.message "resource.Resource", FieldLabel.singular⟩]⟩

def RuntimeCreateRequest : ProtoMessage :=
  ⟨"RuntimeCreateRequest",
   [strField "controller_token" 1,
    ⟨"resource", 2, FieldType.message "resource.Resource", FieldLabel.singular⟩]⟩

def RuntimeCreateResponse : ProtoMessage := ⟨"RuntimeCreateResponse", []⟩

def RuntimeUpdateRequest : ProtoMessage :=
  ⟨"RuntimeUpdateRequest",
   [strField "controller_token" 1, strField "current_version" 2,
    ⟨"new_resource", 3, FieldType.message "resource.Resource", FieldLabel.singular⟩]⟩

def RuntimeUpdateResponse : ProtoMessage := ⟨"RuntimeUpdateResponse", []⟩

def RuntimeTeardownRequest : ProtoMessage :=
  ⟨"RuntimeTeardownRequest",
   [strField "controller_token" 1, strField "namespace" 2,
    strField "type" 3, strField "id" 4]⟩

def RuntimeTeardownResponse : ProtoMessage :=
  ⟨"RuntimeTeardownResponse",
   [⟨"ready", 1, FieldType.bool, FieldLabel.singular⟩]⟩

def RuntimeDestroyRequest : ProtoMessage :=
  ⟨"RuntimeDestroyRequest",
   [strField "controller_token" 1, strField "namespace" 2,
    strField "type" 3, strField "id" 4]⟩

def RuntimeDestroyResponse : ProtoMessage := ⟨"RuntimeDestroyResponse", []⟩

def RuntimeAddFinalizerRequest : ProtoMessage :=
  ⟨"RuntimeAddFinalizerRequest",
   [strField "controller_token" 1, strField "namespace" 2,
    strField "type" 3, strField "id" 4,
    ⟨"finalizers", 5, FieldType.string, FieldLabel.repeated⟩]⟩

def RuntimeAddFinalizerResponse : ProtoMessage := ⟨"RuntimeAddFinalizerResponse", []⟩

def RuntimeRemoveFinalizerRequest : ProtoMessage :=
  ⟨"RuntimeRemoveFinalizerRequest",
   [strField "controller_token" 1, strField "namespace" 2,
    strField "type" 3, strField "id" 4,
    ⟨"finalizers", 5, FieldType.string, FieldLabel.repeated⟩]⟩

def RuntimeRemoveFinalizerResponse : ProtoMessage := ⟨"RuntimeRemoveFinalizerResponse", []⟩

-- service ControllerRuntime
def ControllerRuntime : List ProtoRpc :=
  [⟨"RegisterController", RegisterControllerRequest, RegisterControllerResponse, false⟩,
   ⟨"Start", StartRequest, StartResponse, false⟩,
   ⟨"Stop", StopRequest, StopResponse, false⟩]

-- service ControllerAdapter
def ControllerAdapter : List ProtoRpc :=
  [⟨"ReconcileEvents", ReconcileEventsRequest, ReconcileEventsResponse, true⟩,
   ⟨"QueueReconcile", QueueReconcileRequest, QueueReconcileResponse, false⟩,
   ⟨"UpdateInputs", UpdateInputsRequest, UpdateInputsResponse, false⟩,
   ⟨"Get", RuntimeGetRequest, RuntimeGetResponse, false⟩,
   ⟨"List", RuntimeListRequest, RuntimeListResponse, true⟩,
   ⟨"WatchFor", RuntimeWatchForRequest, RuntimeWatchForResponse, false⟩,
   ⟨"Create", RuntimeCreateRequest, RuntimeCreateResponse, false⟩,
   ⟨"Update", RuntimeUpdateRequest, RuntimeUpdateResponse, false⟩,
   ⟨"Teardown", RuntimeTeardownRequest, RuntimeTeardownResponse, false⟩,
   ⟨"Destroy", RuntimeDestroyRequest, RuntimeDestroyResponse, false⟩,
   ⟨"AddFinalizer", RuntimeAddFinalizerRequest, RuntimeAddFinalizerResponse, false⟩,
   ⟨"RemoveFinalizer", RuntimeRemoveFinalizerRequest, RuntimeRemoveFinalizerResponse, false⟩]

/-- A message carries a `controller_token` string field.  -/
def hasControllerToken (m : ProtoMessage) : Bool :=
  m.fields.any fun f =>
    f.name == "controller_token" && f.typ == FieldType.string

end Proto

/-- C4. Every request message of every operation on the adapter channel
(`ReconcileEvents`, `QueueReconcile`, `UpdateInputs`, `Get`, `List`,
`WatchFor`, `Create`, `Update`, `Teardown`, `Destroy`, `AddFinalizer`,
`RemoveFinalizer`) carries a `controller_token` field scoping the call to one
controller.  The service has exactly these twelve rpcs, and each request
message has a singular string field named `controller_token` at field
number 1. -/
theorem adapter_requests_carry_controller_token :
    (Proto.ControllerAdapter.map ProtoRpc.name =
      ["ReconcileEvents", "QueueReconcile", "UpdateInputs", "Get", "List",
       "WatchFor", "Create", "Update", "Teardown", "Destroy",
       "AddFinalizer", "RemoveFinalizer"]) ∧
    (Proto.ControllerAdapter.all fun rpc =>
      rpc.request.fields.any fun f =>
        f.name == "controller_token" && f.number == 1 &&
        f.typ == FieldType.string && f.label == FieldLabel.singular) = true :=
  ⟨rfl, rfl⟩

/-- C2 counterexample. `RuntimeWatchForResponse` carries no destroyed
flag: it has no boolean field and no field named `destroyed` at all, so the
response cannot distinguish the destroyed outcome by a dedicated flag. -/
theorem watchfor_response_no_destroyed_flag :
    (Proto.RuntimeWatchForResponse.fields.any fun f =>
      f.name == "destroyed" || f.typ == FieldType.bool) = false :=
  rfl

/-- C2 amended. When `WatchFor` returns because the watched resource was
destroyed, its response carries only the last observed state of the resource:
`RuntimeWatchForResponse` consists of exactly the single `resource` field, and
there is no destroyed flag on the wire. -/
theorem watchfor_response_only_resource :
    Proto.RuntimeWatchForResponse.fields =
      [⟨"resource", 1, FieldType.message "resource.Resource", FieldLabel.singular⟩] :=
  rfl

/-- C3. `UpdateInputs` replaces only the controller's input set; the
declared outputs are supplied once at `RegisterController` and the
`UpdateInputs` request cannot carry outputs: its fields are exactly
`controller_token` and the repeated `inputs`, outputs appear in
`RegisterControllerRequest`, and no request message of the whole adapter
channel has a `ControllerOutput`-typed field. -/
theorem update_inputs_cannot_carry_outputs :
    (Proto.UpdateInputsRequest.fields =
      [⟨"controller_token", 1, FieldType.string, FieldLabel.singular⟩,
       ⟨"inputs", 2, FieldType.message "ControllerInput", FieldLabel.repeated⟩]) ∧
    (Proto.RegisterControllerRequest.fields.any fun f =>
      f.name == "outputs" && f.typ == FieldType.message "ControllerOutput" &&
      f.label == FieldLabel.repeated) = true ∧
    (Proto.ControllerAdapter.all fun rpc =>
      rpc.request.fields.all fun f =>
        !(f.typ == FieldType.message "ControllerOutput")) = true :=
  ⟨rfl, rfl, rfl⟩

/-- C5. The wire-visible enumerations have exactly the declared values and
numberings: `ControllerInputKind` has `WEAK=0`, `STRONG=1`, `DESTROY_READY=2`
and `ControllerOutputKind` has `EXCLUSIVE=0`, `SHARED=1`, with no other
members. -/
theorem wire_enums_exact :
    Proto.ControllerInputKind.values =
      [⟨"WEAK", 0⟩, ⟨"STRONG", 1⟩, ⟨"DESTROY_READY", 2⟩] ∧
    Proto.ControllerOutputKind.values =
      [⟨"EXCLUSIVE", 0⟩, ⟨"SHARED", 1⟩] :=
  ⟨rfl, rfl⟩

/-! Input and output declarations as data.

The generated Go structures corresponding to `ControllerInput` and
`ControllerOutput`: an input declaration is a kind, a namespace, a type and an
optional id; an output declaration is a type and a kind. -/

inductive InputKind where
  | weak
  | strong
  | destroyReady
deriving DecidableEq

inductive OutputKind where
  | exclusive
  | shared
deriving DecidableEq

structure ControllerInputDecl where
  kind : InputKind
  «namespace» : String
  type : String
  id : Option String
deriving DecidableEq

structure ControllerOutputDecl where
  type : String
  kind : OutputKind
deriving DecidableEq

/-- Modelled from the spec: the dependency graph's matching of an input
declaration against a resource identity (the graph code itself is not among
the provided sources).  A subscription key is `(namespace, type, id?)`; a
declaration with an id matches only that id, and for subscriptions without an
id all matching resources trigger. -/
def inputCovers (d : ControllerInputDecl) (ns ty i : String) : Bool :=
  d.«namespace» == ns && d.type == ty &&
    (match d.id with
     | none => true
     | some j => j == i)

/-- Modelled from the spec: the ownership claim of an output declaration over
a resource identity (the registry's conflict/authorization code is not among
the provided sources).  Outputs are defined by a resource type only, claiming
the type across all namespaces. -/
def outputCovers (d : ControllerOutputDecl) (_ns ty : String) : Bool :=
  d.type == ty

/-- C6. An input declaration is the tuple (kind, namespace, type,
optional id): the `ControllerInput` message has exactly those fields with
`id` labelled `optional`, and a declaration whose `id` is absent covers every
id of its type in its namespace. -/
theorem input_declaration_shape_and_coverage :
    (Proto.ControllerInput.fields =
      [⟨"kind", 1, FieldType.enumOf "ControllerInputKind", FieldLabel.singular⟩,
       ⟨"namespace", 2, FieldType.string, FieldLabel.singular⟩,
       ⟨"type", 3, FieldType.string, FieldLabel.singular⟩,
       ⟨"id", 4, FieldType.string, FieldLabel.optionalField⟩]) ∧
    ∀ (d : ControllerInputDecl) (ns ty i : String),
      inputCovers { d with id := none } ns ty i =
        (d.«namespace» == ns && d.type == ty) :=
  ⟨rfl, fun _ _ _ _ => by simp [inputCovers]⟩

/-- C7. An output declaration consists only of a resource type and a kind
(`EXCLUSIVE` or `SHARED`): the `ControllerOutput` message has exactly the
fields `type` and `kind`, no namespace field, and the coverage of an output
claim does not depend on the namespace — it covers exactly the identities of
its type. -/
theorem output_declaration_shape_and_coverage :
    (Proto.ControllerOutput.fields =
      [⟨"type", 2, FieldType.string, FieldLabel.singular⟩,
       ⟨"kind", 3, FieldType.enumOf "ControllerOutputKind", FieldLabel.singular⟩]) ∧
    (∀ (d : ControllerOutputDecl) (ns₁ ns₂ ty : String),
      outputCovers d ns₁ ty = outputCovers d ns₂ ty) ∧
    (∀ (d : ControllerOutputDecl) (ns ty : String),
      outputCovers d ns ty = (d.type == ty)) :=
  ⟨rfl, fun _ _ _ _ => rfl, fun _ _ _ => rfl⟩

/-! The Any resource and its passthrough spec (any.go). -/

/-- Bytes of a serialized payload (`[]byte`), one natural number per byte. -/
abbrev Bytes := List Nat

structure MetadataProto where
  «namespace» : String
  type : String
  id : String
  version : String
  owner : String
  phase : String
  finalizers : List String
deriving DecidableEq

structure Metadata where
  «namespace» : String
  type : String
  id : String
  version : String
  owner : String
  phase : String
  finalizers : List String
deriving DecidableEq

/-- Modelled from the spec: `NewMetadataFromProto` (called by
`NewAnyFromProto` but not among the provided sources) converts the metadata
proto into resource metadata and can fail; per the spec's error table a
malformed identity — an empty field where one is required — is rejected. -/
def NewMetadataFromProto (p : MetadataProto) : Except String Metadata :=
  if p.«namespace».isEmpty || p.type.isEmpty || p.id.isEmpty then
    Except.error "invalid argument: malformed identity"
  else
    Except.ok ⟨p.«namespace», p.type, p.id, p.version, p.owner, p.phase, p.finalizers⟩

/-- The decoded Go value (`interface`) a YAML document unmarshals into; kept
opaque, as nothing in the embedded code inspects it. -/
inductive YamlValue where
  | node (doc : Bytes)
deriving DecidableEq

/-- Modelled from the external `gopkg.in/yaml.v3` library (not part of this
repository): `yaml.Unmarshal` decodes a document into a Go value and fails on
syntactically invalid YAML.  The model keeps the decoded value opaque and
enforces one necessary well-formedness condition of real YAML: a document
whose first byte opens a flow mapping (byte 123) must contain a closing
byte 125, otherwise the parser reports an error — exactly what the real
library does on such documents. -/
def yamlUnmarshal (b : Bytes) : Except String YamlValue :=
  match b with
  | 123 :: rest =>
      if rest.contains 125 then
        Except.ok (YamlValue.node b)
      else
        Except.error "yaml: did not find expected node content"
  | _ => Except.ok (YamlValue.node b)

structure anySpec where
  value : YamlValue
  yaml : Bytes
deriving DecidableEq

/-- Any can hold data from any resource type. -/
structure Any where
  spec : anySpec
  md : Metadata
deriving DecidableEq

/-- MarshalYAMLBytes implements the RawYAML interface: it returns the
stored bytes unchanged and never fails. -/
def anySpec.MarshalYAMLBytes (s : anySpec) : Except String Bytes :=
  Except.ok s.yaml

/-- SpecProto is the protobuf interface of a resource spec: something with
a `GetYaml` accessor. -/
structure SpecProto where
  yaml : Bytes
deriving DecidableEq

def SpecProto.GetYaml (s : SpecProto) : Bytes :=
  s.yaml

/-- NewAnyFromProto unmarshals Any from the protobuf interfaces. -/
def NewAnyFromProto (protoMd : MetadataProto) (protoSpec : SpecProto) :
    Except String Any :=
  match NewMetadataFromProto protoMd with
  | Except.error e => Except.error e
  | Except.ok md =>
      match yamlUnmarshal protoSpec.GetYaml with
      | Except.error e => Except.error e
      | Except.ok v =>
          Except.ok { md := md, spec := { value := v, yaml := protoSpec.GetYaml } }

def Any.Spec (a : Any) : anySpec :=
  a.spec

def Any.Value (a : Any) : YamlValue :=
  a.spec.value

def Any.DeepCopy (a : Any) : Any :=
  { md := a.md, spec := a.spec }

/-- A concrete well-formed metadata proto. -/
def c1Md : MetadataProto :=
  ⟨"default", "TestType", "x", "1", "", "running", []⟩

/-- The one-byte payload 123 (an opening flow-mapping bracket with no close),
which is not valid YAML. -/
def c1BadSpec : SpecProto :=
  ⟨[123]⟩

/-- A one-byte payload (the letter a), a valid YAML scalar document. -/
def c1GoodSpec : SpecProto :=
  ⟨[97]⟩

/-- The resource `NewAnyFromProto` builds from `c1Md` and `c1GoodSpec`. -/
def c1GoodAny : Any :=
  { md := ⟨"default", "TestType", "x", "1", "", "running", []⟩,
    spec := { value := YamlValue.node [97], yaml := [97] } }

/-- C1 counterexample. `NewAnyFromProto` does not succeed on every
payload — the runtime does interpret the payload, by YAML-unmarshalling it
into the spec's decoded value: at the well-formed metadata `c1Md` and the
one-byte payload 123 (an unclosed flow mapping, invalid YAML) it returns an
error. -/
theorem new_any_from_proto_not_total :
    NewAnyFromProto c1Md c1BadSpec =
      Except.error "yaml: did not find expected node content" := by
  rfl

/-- C1 amended. `NewAnyFromProto` parses the payload as YAML and can
fail on metadata conversion or on an invalid payload; but whenever it
succeeds, the payload bytes are stored verbatim and the resulting resource's
spec marshals back to exactly the input bytes
(`Spec().MarshalYAMLBytes()` is the identity passthrough). -/
theorem any_spec_passthrough_roundtrip (protoMd : MetadataProto)
    (protoSpec : SpecProto) (a : Any)
    (h : NewAnyFromProto protoMd protoSpec = Except.ok a) :
    a.Spec.MarshalYAMLBytes = Except.ok protoSpec.GetYaml := by
  unfold NewAnyFromProto at h
  cases hm : NewMetadataFromProto protoMd <;> rw [hm] at h
  · exact absurd h (by simp)
  · cases hy : yamlUnmarshal protoSpec.GetYaml <;> rw [hy] at h
    · exact absurd h (by simp)
    · injection h with h
      subst h
      rfl

/-- Witness for C1 (amended): at the concrete metadata `c1Md` and the valid
payload `c1GoodSpec`, `NewAnyFromProto` succeeds with `c1GoodAny`, whose spec
marshals back to the input byte. -/
theorem any_spec_passthrough_roundtrip_witness :
    c1GoodAny.Spec.MarshalYAMLBytes = Except.ok c1GoodSpec.GetYaml :=
  any_spec_passthrough_roundtrip c1Md c1GoodSpec c1GoodAny (by rfl)

/-! ResourceDefinitionSpec (pkg/resource/meta/spec/resource_definition.go).

String helpers translate the Go standard-library calls `Fill` makes; the two
anchored regexps are decided structurally.  Go's `strings.ToLower` and
`unicode.IsUpper` are modelled on ASCII, which is exact on every name the
regexp checks admit. -/

/-- Go strings.SplitN with separator dot and limit 2: at most two pieces, split at the first dot. -/
def splitN2 (s : String) : List String :=
  match s.toList.findIdx? (· == '.') with
  | none => [s]
  | some i => [⟨s.toList.take i⟩, ⟨s.toList.drop (i + 1)⟩]

/-- Go strings.ToLower (ASCII). -/
def toLowerStr (s : String) : String :=
  ⟨s.toList.map Char.toLower⟩

/-- A character of the class `[A-Za-z0-9-]`. -/
def isNameTailChar (c : Char) : Bool :=
  ('A' ≤ c && c ≤ 'Z') || ('a' ≤ c && c ≤ 'z') || ('0' ≤ c && c ≤ '9') || c == '-'

/-- The anchored `nameRegexp`, one upper-case letter then one or more of
`[A-Za-z0-9-]`. -/
def matchNameRe (s : String) : Bool :=
  match s.toList with
  | [] => false
  | c :: rest => ('A' ≤ c && c ≤ 'Z') && !rest.isEmpty && rest.all isNameTailChar

/-- A character of the class `[a-z0-9-]`. -/
def isSuffixTailChar (c : Char) : Bool :=
  ('a' ≤ c && c ≤ 'z') || ('0' ≤ c && c ≤ '9') || c == '-'

/-- One dot-free segment of the suffix: `[a-z][a-z0-9-]+`. -/
def matchSuffixSegment (s : String) : Bool :=
  match s.toList with
  | [] => false
  | c :: rest => ('a' ≤ c && c ≤ 'z') && !rest.isEmpty && rest.all isSuffixTailChar

/-- Go strings.Split at dots, on the character list: splits at every dot,
keeping empty pieces. -/
def splitCharsOnDot : List Char → List (List Char)
  | [] => [[]]
  | c :: rest =>
      let r := splitCharsOnDot rest
      if c == '.' then [] :: r
      else
        match r with
        | [] => [[c]]
        | h :: t => (c :: h) :: t

/-- Go strings.Split at dots. -/
def splitOnDot (s : String) : List String :=
  (splitCharsOnDot s.toList).map (fun l => ⟨l⟩)

/-- Go strings.Join with a dot separator. -/
def joinWithDot : List String → String
  | [] => ""
  | [x] => x
  | x :: xs => x ++ "." ++ joinWithDot xs

/-- Go strings.HasSuffix with the one-letter upper-case S. -/
def hasSuffixS (s : String) : Bool :=
  match s.toList.getLast? with
  | some c => c == 'S'
  | none => false

/-- The anchored `suffixRegexp`: dot-separated segments, each matching
`[a-z][a-z0-9-]+`. -/
def matchSuffixRe (s : String) : Bool :=
  (splitOnDot s).all matchSuffixSegment

/-- The upper-case letters of a name, in order (`strings.Map` dropping
everything that is not upper-case). -/
def upperOnly (s : String) : String :=
  ⟨s.toList.filter (fun c => 'A' ≤ c && c ≤ 'Z')⟩

/-- PrintColumn describes extra columns to print for the resources. -/
structure PrintColumn where
  Name : String
  JSONPath : String
deriving DecidableEq

/-- ResourceDefinitionSpec provides the ResourceDefinition definition.
Sensitivity is a string type in the source. -/
structure ResourceDefinitionSpec where
  «Type» : String
  DisplayType : String
  DefaultNamespace : String
  Aliases : List String
  AllAliases : List String
  PrintColumns : List PrintColumn
  Sensitivity : String
deriving DecidableEq

/-- The distinct error values `Fill` can return. -/
inductive FillError where
  | missingSuffix
  | nameEmpty
  | suffixEmpty
  | nameNotCamelCase
  | nameRegexpMismatch
  | suffixRegexpMismatch
  | nameNotPlural
  | unknownSensitivity (s : String)
deriving DecidableEq

/-- ResourceDefinitionSpec.Fill.  The external pluralize client
(`IsPlural`, `Singular`) and the `allSensitivities` table (defined outside
the provided sources) are taken as parameters.  The Go method mutates its
pointer receiver and then returns; the translation returns the final state of
the receiver together with the returned error, so mutations performed before
an error are visible in the first component. -/
def ResourceDefinitionSpec.Fill (isPlural : String → Bool)
    (singular : String → String) (knownSensitivity : String → Bool)
    (spec : ResourceDefinitionSpec) :
    ResourceDefinitionSpec × Option FillError :=
  let parts := splitN2 spec.«Type»
  bif parts.length == 1 then (spec, some FillError.missingSuffix)
  else
    let name := parts.headD ""
    let suffix := (parts.drop 1).headD ""
    bif name.length == 0 then (spec, some FillError.nameEmpty)
    else bif suffix.length == 0 then (spec, some FillError.suffixEmpty)
    else bif toLowerStr name == name then (spec, some FillError.nameNotCamelCase)
    else bif !matchNameRe name then (spec, some FillError.nameRegexpMismatch)
    else bif !matchSuffixRe suffix then (spec, some FillError.suffixRegexpMismatch)
    else bif !isPlural name then (spec, some FillError.nameNotPlural)
    else
      let displayType := singular name
      let suffixElements := splitOnDot suffix
      let upperLetters := upperOnly name
      let aliases :=
        spec.Aliases ++
          (toLowerStr displayType ::
            (bif Nat.blt 1 upperLetters.length then
              toLowerStr upperLetters ::
                (bif !hasSuffixS upperLetters then
                  [toLowerStr (upperLetters ++ "s")]
                else [])
            else []))
      let allAliases :=
        spec.AllAliases ++
          (toLowerStr name ::
            ((List.range (suffixElements.length - 1)).map (fun i =>
                joinWithDot (toLowerStr name :: suffixElements.take (i + 1))) ++
              aliases))
      let filled := { spec with
        DisplayType := displayType,
        Aliases := aliases,
        AllAliases := allAliases }
      bif !knownSensitivity spec.Sensitivity then
        (filled, some (FillError.unknownSensitivity spec.Sensitivity))
      else
        (filled, none)

/-- The structural checks `Fill` performs on the type name before it first
mutates the receiver, in source order. -/
def fillChecksPass (isPlural : String → Bool) (ty : String) : Bool :=
  let parts := splitN2 ty
  !(parts.length == 1) &&
    (let name := parts.headD ""
     let suffix := (parts.drop 1).headD ""
     !(name.length == 0) && !(suffix.length == 0) &&
       !(toLowerStr name == name) && matchNameRe name && matchSuffixRe suffix &&
       isPlural name)

/-- Appending a non-empty list keeps the original as a proper front part. -/
theorem take_append_cons (l : List α) (x : α) (m : List α) :
    ((l ++ (x :: m)).take l.length = l) ∧ l.length < (l ++ (x :: m)).length := by
  constructor
  · simp
  · simp only [List.length_append, List.length_cons]
    omega

/-- C8. `Fill` is not atomic on error: whenever the type name passes all
structural checks (dot-separated CamelCase plural name with a valid suffix)
but the sensitivity is not a known value, `Fill` returns the
unknown-sensitivity error with the receiver already mutated — `DisplayType`
set to the singular name and both `Aliases` and `AllAliases` strictly
extended. -/
theorem fill_errors_after_mutation (isPlural : String → Bool)
    (singular : String → String) (knownSensitivity : String → Bool)
    (spec : ResourceDefinitionSpec)
    (hchecks : fillChecksPass isPlural spec.«Type» = true)
    (hsens : knownSensitivity spec.Sensitivity = false) :
    (ResourceDefinitionSpec.Fill isPlural singular knownSensitivity spec).2 =
      some (FillError.unknownSensitivity spec.Sensitivity) ∧
    (ResourceDefinitionSpec.Fill isPlural singular knownSensitivity spec).1.DisplayType =
      singular ((splitN2 spec.«Type»).headD "") ∧
    (ResourceDefinitionSpec.Fill isPlural singular knownSensitivity spec).1.Aliases.take
        spec.Aliases.length = spec.Aliases ∧
    spec.Aliases.length <
      (ResourceDefinitionSpec.Fill isPlural singular knownSensitivity spec).1.Aliases.length ∧
    (ResourceDefinitionSpec.Fill isPlural singular knownSensitivity spec).1.AllAliases.take
        spec.AllAliases.length = spec.AllAliases ∧
    spec.AllAliases.length <
      (ResourceDefinitionSpec.Fill isPlural singular knownSensitivity spec).1.AllAliases.length := by
  simp only [fillChecksPass, Bool.and_eq_true, Bool.not_eq_true'] at hchecks
  obtain ⟨h1, ⟨⟨⟨⟨⟨h2, h3⟩, h4⟩, h5⟩, h6⟩, h7⟩⟩ := hchecks
  simp only [ResourceDefinitionSpec.Fill, h1, h2, h3, h4, h5, h6, h7, hsens,
    Bool.not_true, Bool.not_false, Bool.cond_true, Bool.cond_false]
  refine ⟨trivial, trivial, ?_, ?_, ?_, ?_⟩
  · exact (take_append_cons _ _ _).1
  · exact (take_append_cons _ _ _).2
  · exact (take_append_cons _ _ _).1
  · exact (take_append_cons _ _ _).2

/-- Concrete spec for the C8 witness: a well-formed plural CamelCase type
name with an unknown sensitivity value. -/
def c8Spec : ResourceDefinitionSpec :=
  { «Type» := "Tests.cosi.dev", DisplayType := "", DefaultNamespace := "default",
    Aliases := [], AllAliases := [], PrintColumns := [], Sensitivity := "top-secret" }

def c8IsPlural : String → Bool := fun _ => true

def c8Singular : String → String := fun _ => "Test"

/-- The sensitivity table of the source admits the empty (non-sensitive)
value; "top-secret" is not in it. -/
def c8KnownSensitivity : String → Bool := fun s => s == ""

/-- Witness for C8 at a concrete input: the checks pass, the sensitivity is
unknown, and `Fill` errors with the receiver already mutated. -/
theorem fill_errors_after_mutation_witness :
    fillChecksPass c8IsPlural c8Spec.«Type» = true ∧
    c8KnownSensitivity c8Spec.Sensitivity = false ∧
    (ResourceDefinitionSpec.Fill c8IsPlural c8Singular c8KnownSensitivity c8Spec).2 =
      some (FillError.unknownSensitivity c8Spec.Sensitivity) ∧
    (ResourceDefinitionSpec.Fill c8IsPlural c8Singular c8KnownSensitivity c8Spec).1.DisplayType =
      c8Singular ((splitN2 c8Spec.«Type»).headD "") ∧
    (ResourceDefinitionSpec.Fill c8IsPlural c8Singular c8KnownSensitivity c8Spec).1.Aliases.take
        c8Spec.Aliases.length = c8Spec.Aliases ∧
    c8Spec.Aliases.length <
      (ResourceDefinitionSpec.Fill c8IsPlural c8Singular c8KnownSensitivity c8Spec).1.Aliases.length ∧
    (ResourceDefinitionSpec.Fill c8IsPlural c8Singular c8KnownSensitivity c8Spec).1.AllAliases.take
        c8Spec.AllAliases.length = c8Spec.AllAliases ∧
    c8Spec.AllAliases.length <
      (ResourceDefinitionSpec.Fill c8IsPlural c8Singular c8KnownSensitivity c8Spec).1.AllAliases.length := by
  refine ⟨by decide, by decide, ?_⟩
  have h := fill_errors_after_mutation c8IsPlural c8Singular c8KnownSensitivity c8Spec
    (by decide) (by decide)
  exact ⟨h.1, h.2.1, h.2.2.1, h.2.2.2.1, h.2.2.2.2.1, h.2.2.2.2.2⟩

/-! DeepCopy and Go slice aliasing.

Go slices are references into storage.  To make the aliasing behaviour of
`DeepCopy` statable, slice storage lives in an explicit heap: a slice value
is either `nil` (`none`) or a pointer into the heap, and `make` followed by
`copy` is the allocation of a fresh cell holding the copied elements. -/

structure Heap (α : Type) where
  next : Nat
  mem : Nat → List α

/-- Go make followed by copy: allocate a fresh cell holding the
given elements, returning the new heap and the fresh pointer. -/
def Heap.alloc {α : Type} (h : Heap α) (v : List α) : Heap α × Nat :=
  ({ next := h.next + 1, mem := fun p => if p = h.next then v else h.mem p }, h.next)

/-- A Go slice value: `nil` or a pointer to its storage. -/
abbrev GoSlice := Option Nat

/-- The elements a slice refers to (`nil` refers to none). -/
def Heap.deref {α : Type} (h : Heap α) : GoSlice → List α
  | none => []
  | some p => h.mem p

/-- The slice is `nil` or points strictly below the bound (it lives in a heap
whose allocation frontier is the bound). -/
def ptrBelow (s : GoSlice) (n : Nat) : Bool :=
  match s with
  | none => true
  | some p => Nat.blt p n

/-- The slice is `nil` or points at or above the bound (its storage is fresh
with respect to a heap whose allocation frontier is the bound). -/
def ptrAtLeast (s : GoSlice) (n : Nat) : Bool :=
  match s with
  | none => true
  | some p => Nat.ble n p

/-- ResourceDefinitionSpec with its three slice fields as heap references,
for reasoning about storage sharing.  String-slice storage and print-column
storage live in separate heaps. -/
structure ResourceDefinitionSpecRef where
  «Type» : String
  DisplayType : String
  DefaultNamespace : String
  Aliases : GoSlice
  AllAliases : GoSlice
  PrintColumns : GoSlice
  Sensitivity : String
deriving DecidableEq

/-- ResourceDefinitionSpec.DeepCopy: the assignment cp := spec shares every field; then
each of the three slice fields that is not `nil` is replaced by a freshly
allocated copy of its elements, in source order. -/
def ResourceDefinitionSpecRef.DeepCopy (hs : Heap String) (hc : Heap PrintColumn)
    (spec : ResourceDefinitionSpecRef) :
    Heap String × Heap PrintColumn × ResourceDefinitionSpecRef :=
  let step1 : Heap String × ResourceDefinitionSpecRef :=
    match spec.Aliases with
    | none => (hs, spec)
    | some p =>
        let a := hs.alloc (hs.mem p)
        (a.1, { spec with Aliases := some a.2 })
  let step2 : Heap String × ResourceDefinitionSpecRef :=
    match spec.AllAliases with
    | none => step1
    | some p =>
        let a := step1.1.alloc (step1.1.mem p)
        (a.1, { step1.2 with AllAliases := some a.2 })
  let step3 : Heap PrintColumn × ResourceDefinitionSpecRef :=
    match spec.PrintColumns with
    | none => (hc, step2.2)
    | some p =>
        let a := hc.alloc (hc.mem p)
        (a.1, { step2.2 with PrintColumns := some a.2 })
  (step2.1, step3.1, step3.2)

/-- C9. `DeepCopy` returns a field-by-field equal copy: the scalar fields
are unchanged and each slice field refers to element-wise equal contents
(`nil`-ness included), while every slice pointer of the copy is freshly
allocated — at or above the allocation frontier of the input heaps — so the
copy shares no slice storage with the original, whose pointers all lie
strictly below those frontiers. -/
theorem deep_copy_equal_and_fresh (hs : Heap String) (hc : Heap PrintColumn)
    (spec : ResourceDefinitionSpecRef)
    (hA : ptrBelow spec.Aliases hs.next = true)
    (hB : ptrBelow spec.AllAliases hs.next = true)
    (hC : ptrBelow spec.PrintColumns hc.next = true) :
    (spec.DeepCopy hs hc).2.2.«Type» = spec.«Type» ∧
    (spec.DeepCopy hs hc).2.2.DisplayType = spec.DisplayType ∧
    (spec.DeepCopy hs hc).2.2.DefaultNamespace = spec.DefaultNamespace ∧
    (spec.DeepCopy hs hc).2.2.Sensitivity = spec.Sensitivity ∧
    (spec.DeepCopy hs hc).1.deref (spec.DeepCopy hs hc).2.2.Aliases =
      hs.deref spec.Aliases ∧
    (spec.DeepCopy hs hc).1.deref (spec.DeepCopy hs hc).2.2.AllAliases =
      hs.deref spec.AllAliases ∧
    (spec.DeepCopy hs hc).2.1.deref (spec.DeepCopy hs hc).2.2.PrintColumns =
      hc.deref spec.PrintColumns ∧
    (spec.DeepCopy hs hc).2.2.Aliases.isSome = spec.Aliases.isSome ∧
    (spec.DeepCopy hs hc).2.2.AllAliases.isSome = spec.AllAliases.isSome ∧
    (spec.DeepCopy hs hc).2.2.PrintColumns.isSome = spec.PrintColumns.isSome ∧
    ptrAtLeast (spec.DeepCopy hs hc).2.2.Aliases hs.next = true ∧
    ptrAtLeast (spec.DeepCopy hs hc).2.2.AllAliases hs.next = true ∧
    ptrAtLeast (spec.DeepCopy hs hc).2.2.PrintColumns hc.next = true := by
  obtain ⟨ns, ms⟩ := hs
  obtain ⟨nc, mc⟩ := hc
  obtain ⟨t, dt, dn, al, aal, pc, sens⟩ := spec
  rcases al with _ | p <;> rcases aal with _ | q <;> rcases pc with _ | r
  all_goals simp only [ptrBelow, Nat.blt_eq] at hA hB hC
  all_goals try replace hB : q ≠ ns := Nat.ne_of_lt hB
  all_goals
    simp [ResourceDefinitionSpecRef.DeepCopy, Heap.alloc, Heap.deref, ptrAtLeast,
      Nat.ble_eq, hB]

/-- Concrete heaps and spec for the C9 witness. -/
def c9Hs : Heap String :=
  ⟨2, fun p => if p = 0 then ["a", "b"] else if p = 1 then ["c"] else []⟩

def c9Hc : Heap PrintColumn :=
  ⟨1, fun p => if p = 0 then [⟨"col", "path"⟩] else []⟩

def c9Spec : ResourceDefinitionSpecRef :=
  { «Type» := "Tests.cosi.dev", DisplayType := "Test", DefaultNamespace := "default",
    Aliases := some 0, AllAliases := some 1, PrintColumns := some 0,
    Sensitivity := "" }

/-- Witness for C9 at concrete heaps: the copy has equal contents and fresh
pointers. -/
theorem deep_copy_equal_and_fresh_witness :
    (c9Spec.DeepCopy c9Hs c9Hc).2.2.«Type» = c9Spec.«Type» ∧
    (c9Spec.DeepCopy c9Hs c9Hc).2.2.DisplayType = c9Spec.DisplayType ∧
    (c9Spec.DeepCopy c9Hs c9Hc).2.2.DefaultNamespace = c9Spec.DefaultNamespace ∧
    (c9Spec.DeepCopy c9Hs c9Hc).2.2.Sensitivity = c9Spec.Sensitivity ∧
    (c9Spec.DeepCopy c9Hs c9Hc).1.deref (c9Spec.DeepCopy c9Hs c9Hc).2.2.Aliases =
      c9Hs.deref c9Spec.Aliases ∧
    (c9Spec.DeepCopy c9Hs c9Hc).1.deref (c9Spec.DeepCopy c9Hs c9Hc).2.2.AllAliases =
      c9Hs.deref c9Spec.AllAliases ∧
    (c9Spec.DeepCopy c9Hs c9Hc).2.1.deref (c9Spec.DeepCopy c9Hs c9Hc).2.2.PrintColumns =
      c9Hc.deref c9Spec.PrintColumns ∧
    (c9Spec.DeepCopy c9Hs c9Hc).2.2.Aliases.isSome = c9Spec.Aliases.isSome ∧
    (c9Spec.DeepCopy c9Hs c9Hc).2.2.AllAliases.isSome = c9Spec.AllAliases.isSome ∧
    (c9Spec.DeepCopy c9Hs c9Hc).2.2.PrintColumns.isSome = c9Spec.PrintColumns.isSome ∧
    ptrAtLeast (c9Spec.DeepCopy c9Hs c9Hc).2.2.Aliases c9Hs.next = true ∧
    ptrAtLeast (c9Spec.DeepCopy c9Hs c9Hc).2.2.AllAliases c9Hs.next = true ∧
    ptrAtLeast (c9Spec.DeepCopy c9Hs c9Hc).2.2.PrintColumns c9Hc.next = true :=
  deep_copy_equal_and_fresh c9Hs c9Hc c9Spec (by rfl) (by rfl) (by rfl)

/-! The function safe.WriterModify (pkg/safe/writer.go).

The generic wrapper is embedded over abstract types: `R` is the dynamic
`resource.Resource` interface type, `T` the concrete resource type, with the
implicit interface upcast `inj` and the type assertion `tryCast` (which
succeeds exactly on values of dynamic type `T`); `E` is the error type and
`mismatchErr` the formatted type-mismatch error.  The writer's `Modify` is an
arbitrary function of the upcast resource and the callback. -/

/-- The callback `WriterModify` builds and hands to `writer.Modify`: type
assertion first, the wrapped `fn` only on success. -/
def modifyCallback {R T E : Type} (tryCast : R → Option T) (mismatchErr : E)
    (fn : T → Option E) (r : R) : Option E :=
  match tryCast r with
  | none => some mismatchErr
  | some arg => fn arg

/-- WriterModify is a type-safe wrapper around `writer.Modify`. -/
def WriterModify {R T E : Type} (modify : R → (R → Option E) → Option E)
    (inj : T → R) (tryCast : R → Option T) (mismatchErr : E)
    (r : T) (fn : T → Option E) : Option E :=
  modify (inj r) (modifyCallback tryCast mismatchErr fn)

/-- C10. For every resource the writer passes to the callback built by
`WriterModify`: if it is not of type `T` the callback returns the
type-mismatch error without invoking `fn` (the result does not depend on
`fn` at all), and if it is of type `T` the callback returns exactly `fn`
applied to it; `WriterModify` itself returns whatever `writer.Modify`
returns on the upcast resource and that callback. -/
theorem writer_modify_callback_behaviour {R T E : Type}
    (modify : R → (R → Option E) → Option E) (inj : T → R)
    (tryCast : R → Option T) (mismatchErr : E) (r0 : T) (fn : T → Option E) :
    (∀ r, tryCast r = none →
      modifyCallback tryCast mismatchErr fn r = some mismatchErr ∧
      ∀ fn', modifyCallback tryCast mismatchErr fn' r =
        modifyCallback tryCast mismatchErr fn r) ∧
    (∀ r a, tryCast r = some a →
      modifyCallback tryCast mismatchErr fn r = fn a) ∧
    WriterModify modify inj tryCast mismatchErr r0 fn =
      modify (inj r0) (modifyCallback tryCast mismatchErr fn) := by
  refine ⟨?_, ?_, rfl⟩
  · intro r hr
    refine ⟨?_, ?_⟩
    · simp [modifyCallback, hr]
    · intro fn'
      simp [modifyCallback, hr]
  · intro r a hr
    simp [modifyCallback, hr]

/-- A two-variant dynamic resource universe for the C10 witness: variant `a`
is the concrete type (holding a number), variant `b` some other resource
type. -/
inductive DynRes where
  | a (n : Nat)
  | b (s : String)
deriving DecidableEq

def dynTryCast : DynRes → Option Nat
  | DynRes.a n => some n
  | DynRes.b _ => none

def dynInj : Nat → DynRes :=
  DynRes.a

/-- A writer whose `Modify` just runs the callback on the given resource. -/
def dynModify (r : DynRes) (f : DynRes → Option String) : Option String :=
  f r

def c10Fn : Nat → Option String :=
  fun _ => none

/-- Witness for C10 at a concrete instantiation: a mismatching resource gets
the mismatch error, a matching one gets `fn`'s result, and `WriterModify`
forwards `writer.Modify`'s result. -/
theorem writer_modify_callback_behaviour_witness :
    modifyCallback dynTryCast "type mismatch" c10Fn (DynRes.b "x") =
      some "type mismatch" ∧
    modifyCallback dynTryCast "type mismatch" c10Fn (DynRes.a 3) = c10Fn 3 ∧
    WriterModify dynModify dynInj dynTryCast "type mismatch" 3 c10Fn =
      dynModify (dynInj 3) (modifyCallback dynTryCast "type mismatch" c10Fn) :=
  ⟨((writer_modify_callback_behaviour dynModify dynInj dynTryCast
      "type mismatch" 3 c10Fn).1 (DynRes.b "x") rfl).1,
   (writer_modify_callback_behaviour dynModify dynInj dynTryCast
      "type mismatch" 3 c10Fn).2.1 (DynRes.a 3) 3 rfl,
   (writer_modify_callback_behaviour dynModify dynInj dynTryCast
      "type mismatch" 3 c10Fn).2.2⟩

end CosiRuntime
